import Mathlib

/-!
Verification of the drone/camera pricing engine
(`src/Updated_Code.py`, with the same logic inlined in `src/code.py`).

The Python records are dictionaries.  Input fields that validation may find
absent or ill-typed are modelled as `Option PyVal`; computed fields start as
`none` (Python `None`) and are written by the pricing steps.  Money and rates
are exact rationals (`ℚ`); the ILF curve is transcendental
(`(x / base_limit) ** log2 (1 + z)`), so ILF-valued fields live in `ℝ`.
Python exceptions are modelled with `Except` / an explicit error component.
-/

namespace DronePricing

/-- A Python value stored in a drone dictionary's input field:
a number (`int`/`float`, modelled exactly as `ℚ`), a string, or `None`. -/
inductive PyVal where
  | num (q : ℚ)
  | str (s : String)
  | pyNone
deriving DecidableEq

/-- The Python exceptions the engine can raise:
`KeyError` (missing key) in `validate_drone`, `TypeError` (wrong field type)
in `validate_drone`, `ValueError` (negative value) in `validate_drone`,
`ZeroDivisionError` in the gross computation, and the `TypeError` obtained by
multiplying a number with `None` in `calculate_camera_premium`.
There is no constructor for a "no applicable rate" condition because the
source defines none. -/
inductive Err where
  | missingField (key : String)
  | typeMismatch (field : String)
  | invalidValue
  | divideByZero
  | noneArithmetic
deriving DecidableEq

/-- A drone dictionary.  The four validated input fields are `Option PyVal`
(`none` models the key being absent from the dict); `has_detachable_camera`
is a plain flag (never validated, always present in the data the engine
receives); computed fields start `none` and are written by the engine. -/
structure DroneDict where
  serial_number : String
  value : Option PyVal
  weight : Option PyVal
  has_detachable_camera : Bool
  tpl_limit : Option PyVal
  tpl_excess : Option PyVal
  hull_base_rate : Option ℚ
  hull_weight_adjustment : Option ℚ
  hull_final_rate : Option ℚ
  hull_premium : Option ℚ
  tpl_base_rate : Option ℚ
  tpl_base_layer_premium : Option ℚ
  tpl_ilf : Option ℝ
  tpl_layer_premium : Option ℝ
  adjusted_hull_premium : Option ℚ
deriving Inhabited

/-- A camera dictionary: serial, value, and the computed hull fields. -/
structure Camera where
  serial_number : String
  value : ℚ
  hull_rate : Option ℚ
  hull_premium : Option ℚ
  adjusted_hull_premium : Option ℚ
deriving DecidableEq, Inhabited

/-- Look a required key up in a drone dictionary
(the four keys checked by `validate_drone`; any other key is unknown to it). -/
def getKey (d : DroneDict) (key : String) : Option PyVal :=
  if key = "value" then d.value
  else if key = "weight" then d.weight
  else if key = "tpl_limit" then d.tpl_limit
  else if key = "tpl_excess" then d.tpl_excess
  else none

/-- The numeric content of `drone['value']` (total projection; the default
branches are unreachable on the paths where the engine reads the field,
because `validate_drone` has already established it is a number). -/
def numVal (v : Option PyVal) : ℚ :=
  match v with
  | some (.num q) => q
  | _ => 0

/-- The string content of `drone['weight']` (total projection; default
unreachable after validation). -/
def strVal (v : Option PyVal) : String :=
  match v with
  | some (.str s) => s
  | _ => ""

/-- `required = ['value', 'weight', 'tpl_limit', 'tpl_excess']`
(`src/Updated_Code.py` line 132). -/
def requiredKeys : List String := ["value", "weight", "tpl_limit", "tpl_excess"]

/-- The trailing statement of each loop iteration of `validate_drone`
(`src/Updated_Code.py` lines 148-150): `if drone['value'] < 0: raise
ValueError`.  Python evaluates `drone['value']` afresh each iteration; on
every reachable path the first iteration has already established that the
key is present and numeric, so the fallback branches (a `KeyError` or the
`TypeError` from comparing a non-number with `0`) never fire in context. -/
def checkValueSign (d : DroneDict) : Except Err Unit :=
  match d.value with
  | some (.num q) => if q < 0 then .error .invalidValue else .ok ()
  | some _ => .error (.typeMismatch "value")
  | none => .error (.missingField "value")

/-- One iteration of the `for key in required` loop of `validate_drone`
(`src/Updated_Code.py` lines 134-150): presence check, then the type check
(string for `weight`, numeric otherwise), then the `value < 0` check. -/
def checkKey (d : DroneDict) (key : String) : Except Err Unit :=
  match getKey d key with
  | none => .error (.missingField key)
  | some v =>
    if key = "weight" then
      match v with
      | .str _ => checkValueSign d
      | _ => .error (.typeMismatch key)
    else
      match v with
      | .num _ => checkValueSign d
      | _ => .error (.typeMismatch key)

/-- `validate_drone` (`src/Updated_Code.py` lines 129-150): run the per-key
checks over the required keys in order; the first failure propagates as the
raised exception. -/
def validate_drone (d : DroneDict) : Except Err Unit :=
  requiredKeys.foldlM (fun _ key => checkKey d key) ()

/-- `ilf` (`src/Updated_Code.py` lines 154-166, identical inner function in
`src/code.py` lines 140-151): `(x / base_limit) ** math.log2(1 + z)`,
idealized over `ℝ` with Mathlib's `rpow` and `logb`. -/
noncomputable def ilf (x base_limit z : ℝ) : ℝ :=
  (x / base_limit) ^ Real.logb 2 (1 + z)

/-- `ilf_layer` (`src/Updated_Code.py` lines 168-182):
`ilf(limit + excess) - ilf(excess)`. -/
noncomputable def ilf_layer (limit excess base_limit z : ℝ) : ℝ :=
  ilf (limit + excess) base_limit z - ilf excess base_limit z

/-- `calculate_hull_premium` (`src/Updated_Code.py` lines 187-205).  Python
mutates the shared dict and raises on bad input, so the embedding passes the
record state explicitly and returns the final state together with the raised
exception, if any: `validate_drone` runs before any assignment, hence on
failure the returned state is the untouched input record.  The weight lookup
is `weight_adj_table.get(drone['weight'], 1)`: a dictionary lookup that
defaults to `1` on an unknown band. -/
def calculate_hull_premium (drone : DroneDict) (hull_base_rate : ℚ)
    (weight_adj_table : List (String × ℚ)) : DroneDict × Option Err :=
  match validate_drone drone with
  | .error e => (drone, some e)
  | .ok _ =>
    let hwa : ℚ := ((weight_adj_table.lookup (strVal drone.weight)).getD 1)
    let hfr : ℚ := hull_base_rate * hwa
    ({drone with
        hull_base_rate := some hull_base_rate,
        hull_weight_adjustment := some hwa,
        hull_final_rate := some hfr,
        hull_premium := some (numVal drone.value * hfr)}, none)

/-- `calculate_tpl_premium` (`src/Updated_Code.py` lines 208-227), in the
same state-passing style: validation first (state unchanged on failure), then
`tpl_base_layer_premium = tpl_base_rate * value`,
`tpl_ilf = ilf_layer(tpl_limit, tpl_excess, base_limit, z)` and
`tpl_layer_premium = tpl_base_layer_premium * tpl_ilf`. -/
noncomputable def calculate_tpl_premium (drone : DroneDict) (tpl_base_rate : ℚ)
    (base_limit z : ℝ) : DroneDict × Option Err :=
  match validate_drone drone with
  | .error e => (drone, some e)
  | .ok _ =>
    let tblp : ℚ := tpl_base_rate * numVal drone.value
    let tilf : ℝ :=
      ilf_layer (numVal drone.tpl_limit) (numVal drone.tpl_excess) base_limit z
    ({drone with
        tpl_base_rate := some tpl_base_rate,
        tpl_base_layer_premium := some tblp,
        tpl_ilf := some tilf,
        tpl_layer_premium := some ((tblp : ℝ) * tilf)}, none)

/-- The stored `hull_final_rate` of a drone, as the code reads it back
(total projection; the camera-rate lookup runs after hull pricing, where the
field is set). -/
def hullFinalRateD (d : DroneDict) : ℚ := d.hull_final_rate.getD 0

/-- The stored `hull_premium` of a drone (total projection; the extension
step runs after hull pricing, where the field is set). -/
def hullPremiumD (d : DroneDict) : ℚ := d.hull_premium.getD 0

/-- The stored `adjusted_hull_premium` of a drone (total projection; the
aggregation step runs after the extension step, where the field is set). -/
def adjustedHullPremiumD (d : DroneDict) : ℚ := d.adjusted_hull_premium.getD 0

/-- The stored `tpl_layer_premium` of a drone (total projection; aggregation
runs after TPL pricing, where the field is set). -/
noncomputable def tplLayerPremiumD (d : DroneDict) : ℝ :=
  d.tpl_layer_premium.getD 0

/-- The stored `hull_premium` of a camera (total projection; the extension
step runs after camera pricing, where the field is set). -/
def camHullPremiumD (c : Camera) : ℚ := c.hull_premium.getD 0

/-- The stored `adjusted_hull_premium` of a camera (total projection). -/
def camAdjustedHullPremiumD (c : Camera) : ℚ := c.adjusted_hull_premium.getD 0

/-- `get_max_hull_rate` (`src/Updated_Code.py` lines 233-245): a loop over
the drones with accumulator `max_rate`, starting at `None`, that takes
`d['hull_final_rate']` whenever the drone has the detachable-camera flag and
its rate improves on (or initializes) the accumulator.  Returns `none`
exactly when no drone carries a detachable camera.  `maxRateStep` is the
loop body. -/
def maxRateStep (max_rate : Option ℚ) (d : DroneDict) : Option ℚ :=
  if d.has_detachable_camera then
    match max_rate with
    | none => some (hullFinalRateD d)
    | some m => if hullFinalRateD d > m then some (hullFinalRateD d) else some m
  else max_rate

def get_max_hull_rate (drones : List DroneDict) : Option ℚ :=
  drones.foldl maxRateStep none

/-- `calculate_camera_premium` (`src/Updated_Code.py` lines 248-257): for
every camera set `hull_rate = max_hull_rate` and
`hull_premium = value * hull_rate`.  The rate argument is the result of
`get_max_hull_rate`, which `main` passes through unchecked; when it is
`None` and the camera list is non-empty, Python raises
`TypeError: unsupported operand type(s)` at `camera['value'] *
camera['hull_rate']`, modelled as `Err.noneArithmetic`. -/
def calculate_camera_premium (detachable_cameras : List Camera)
    (max_hull_rate : Option ℚ) : Except Err (List Camera) :=
  detachable_cameras.mapM
    (fun camera =>
      match max_hull_rate with
      | some r =>
        .ok {camera with hull_rate := some r, hull_premium := some (camera.value * r)}
      | none => .error .noneArithmetic)

/-- Step (2) of `main` (`src/Updated_Code.py` lines 321-324): compute the
maximum rate and price every camera with it. -/
def rate_cameras (drones : List DroneDict) (cameras : List Camera) :
    Except Err (List Camera) :=
  calculate_camera_premium cameras (get_max_hull_rate drones)

/-- One insertion step of a stable descending sort by a rational key: the
inserted element goes before the first element whose key is not greater,
hence before any equal-keyed element already placed.  Auxiliary to
`sortDescBy` below. -/
def insertDescBy (key : α → ℚ) (x : α) : List α → List α
  | [] => [x]
  | y :: ys => if key x < key y then y :: insertDescBy key x ys else x :: y :: ys

/-- Embedding of Python `sorted(l, key=key, reverse=True)` as used at
`src/Updated_Code.py` lines 273 and 286: a stable sort producing descending
key order with ties kept in original input order.  Python's Timsort is
stable; any stable sort by the same key computes the same list, and this
insertion sort is stable because `insertDescBy` never passes an element of
equal key. -/
def sortDescBy (key : α → ℚ) : List α → List α
  | [] => []
  | x :: xs => insertDescBy key x (sortDescBy key xs)

/-- The drone half of `applying_extensions` (`src/Updated_Code.py` lines
270-279): sort the drones by `hull_premium` descending, then give the drone
at sorted index `i` the adjusted premium `hull_premium` if `i <
max_drones` and the flat `150` otherwise.  The Python loop mutates the
shared dicts in place; the records here are returned in sorted order, which
preserves every record's fields and therefore every per-record claim and
every aggregate sum (the later steps of `main` only sum over the list). -/
def droneCap (max_drones : ℕ) (drones : List DroneDict) : List DroneDict :=
  (sortDescBy hullPremiumD drones).enum.map
    (fun p =>
      if max_drones ≤ p.1 then {p.2 with adjusted_hull_premium := some 150}
      else {p.2 with adjusted_hull_premium := some (hullPremiumD p.2)})

/-- The camera half of `applying_extensions` (`src/Updated_Code.py` lines
285-295): if there are more cameras than drones, sort the cameras by
`value` descending and keep the first `max_drones` at `hull_premium`, give
the rest the flat `50`; otherwise every camera keeps
`adjusted_hull_premium = hull_premium`. -/
def cameraCap (max_drones num_drones : ℕ) (cameras : List Camera) : List Camera :=
  if cameras.length > num_drones then
    (sortDescBy Camera.value cameras).enum.map
      (fun p =>
        if max_drones ≤ p.1 then {p.2 with adjusted_hull_premium := some 50}
        else {p.2 with adjusted_hull_premium := some (camHullPremiumD p.2)})
  else
    cameras.map (fun c => {c with adjusted_hull_premium := some (camHullPremiumD c)})

/-- The policy batch: the fields of the top-level data dictionary that the
rating computations read or write (`insured`, `underwriter` and `broker`
are free text the engine never touches). -/
structure Batch where
  brokerage : ℚ
  max_drones_in_air : ℕ
  drones : List DroneDict
  detachable_cameras : List Camera

/-- `applying_extensions` (`src/Updated_Code.py` lines 262-295): apply the
drone cap and the camera cap to the batch. -/
def applying_extensions (data : Batch) : Batch :=
  {data with
    drones := droneCap data.max_drones_in_air data.drones,
    detachable_cameras :=
      cameraCap data.max_drones_in_air data.drones.length data.detachable_cameras}

/-- The net totals dictionary.  `drones_hull` and `cameras_hull` are sums of
exact rationals; `drones_tpl` sums TPL layer premiums, which carry the real
ILF factor. -/
structure NetPrem where
  drones_hull : ℚ
  drones_tpl : ℝ
  cameras_hull : ℚ
  total : ℝ

/-- The gross totals dictionary, same line types as `NetPrem`. -/
@[ext]
structure GrossPrem where
  drones_hull : ℚ
  drones_tpl : ℝ
  cameras_hull : ℚ
  total : ℝ

/-- The net half of step (4) of `main` (`src/Updated_Code.py` lines
334-338): each line is the sum of the stored per-record premiums, and the
total is the sum of the three lines. -/
noncomputable def compute_net (drones : List DroneDict) (cameras : List Camera) :
    NetPrem :=
  let dh : ℚ := (drones.map adjustedHullPremiumD).sum
  let dt : ℝ := (drones.map tplLayerPremiumD).sum
  let ch : ℚ := (cameras.map camAdjustedHullPremiumD).sum
  { drones_hull := dh, drones_tpl := dt, cameras_hull := ch,
    total := (dh : ℝ) + dt + (ch : ℝ) }

/-- The gross half of step (4) of `main` (`src/Updated_Code.py` lines
340-346): divide each net line by `1 - brokerage` and sum the three gross
lines.  Python raises `ZeroDivisionError` at the first division exactly when
`1 - brokerage == 0`; any other denominator, negative ones included,
divides without error. -/
noncomputable def compute_gross (net : NetPrem) (brokerage : ℚ) :
    Except Err GrossPrem :=
  if 1 - brokerage = 0 then .error .divideByZero
  else
    let gdh : ℚ := net.drones_hull / (1 - brokerage)
    let gdt : ℝ := net.drones_tpl / (1 - (brokerage : ℝ))
    let gch : ℚ := net.cameras_hull / (1 - brokerage)
    .ok { drones_hull := gdh, drones_tpl := gdt, cameras_hull := gch,
          total := (gdh : ℝ) + gdt + (gch : ℝ) }

/-- Inserting with `insertDescBy` permutes: the result is the element
consed on the input, up to permutation. -/
theorem insertDescBy_perm (key : α → ℚ) (x : α) (l : List α) :
    (insertDescBy key x l).Perm (x :: l) := by
  induction l with
  | nil => rfl
  | cons y ys ih =>
    unfold insertDescBy
    by_cases h : key x < key y
    · rw [if_pos h]
      exact (ih.cons y).trans (List.Perm.swap x y ys)
    · rw [if_neg h]

/-- `sortDescBy` permutes its input. -/
theorem sortDescBy_perm (key : α → ℚ) (l : List α) :
    (sortDescBy key l).Perm l := by
  induction l with
  | nil => rfl
  | cons x xs ih => exact (insertDescBy_perm key x _).trans (ih.cons x)

/-- Inserting into a descending-sorted list keeps it descending-sorted. -/
theorem pairwise_insertDescBy (key : α → ℚ) (x : α) (l : List α)
    (h : l.Pairwise (fun a b => key b ≤ key a)) :
    (insertDescBy key x l).Pairwise (fun a b => key b ≤ key a) := by
  induction l with
  | nil => simp [insertDescBy]
  | cons y ys ih =>
    rcases List.pairwise_cons.mp h with ⟨hy, hys⟩
    unfold insertDescBy
    by_cases hxy : key x < key y
    · rw [if_pos hxy]
      refine List.pairwise_cons.mpr ⟨?_, ih hys⟩
      intro z hz
      rcases List.mem_cons.mp ((insertDescBy_perm key x ys).mem_iff.mp hz) with
        rfl | hzys
      · exact hxy.le
      · exact hy z hzys
    · rw [if_neg hxy]
      refine List.pairwise_cons.mpr ⟨?_, h⟩
      intro z hz
      rcases List.mem_cons.mp hz with rfl | hzys
      · exact not_lt.mp hxy
      · exact (hy z hzys).trans (not_lt.mp hxy)

/-- `sortDescBy` sorts: successive keys are non-increasing. -/
theorem sortDescBy_pairwise (key : α → ℚ) (l : List α) :
    (sortDescBy key l).Pairwise (fun a b => key b ≤ key a) := by
  induction l with
  | nil => exact List.Pairwise.nil
  | cons x xs ih => exact pairwise_insertDescBy key x _ ih

/-- Insertion does not disturb the elements of any other key class. -/
theorem filter_insertDescBy_ne (key : α → ℚ) (x : α) (l : List α) (q : ℚ)
    (hx : key x ≠ q) :
    (insertDescBy key x l).filter (fun a => decide (key a = q)) =
      l.filter (fun a => decide (key a = q)) := by
  induction l with
  | nil => simp [insertDescBy, hx]
  | cons y ys ih =>
    unfold insertDescBy
    by_cases hxy : key x < key y
    · rw [if_pos hxy]
      simp only [List.filter_cons, ih]
    · rw [if_neg hxy]
      simp [List.filter_cons, hx]

/-- Insertion places the new element in front of every element of its own
key class: elements skipped over have strictly larger keys. -/
theorem filter_insertDescBy_eq (key : α → ℚ) (x : α) (l : List α) :
    (insertDescBy key x l).filter (fun a => decide (key a = key x)) =
      x :: l.filter (fun a => decide (key a = key x)) := by
  induction l with
  | nil => simp [insertDescBy]
  | cons y ys ih =>
    unfold insertDescBy
    by_cases hxy : key x < key y
    · rw [if_pos hxy]
      have hy : ¬ key y = key x := fun h => absurd hxy (by rw [h]; exact lt_irrefl _)
      simp [List.filter_cons, hy, ih]
    · rw [if_neg hxy]
      simp [List.filter_cons]

/-- Stability of `sortDescBy`: within each key class the sorted list keeps
exactly the original input order (the classical filter formulation of
stability, matching Python's stable `sorted`). -/
theorem sortDescBy_stable (key : α → ℚ) (l : List α) (q : ℚ) :
    (sortDescBy key l).filter (fun a => decide (key a = q)) =
      l.filter (fun a => decide (key a = q)) := by
  induction l with
  | nil => rfl
  | cons x xs ih =>
    unfold sortDescBy
    by_cases hx : key x = q
    · subst hx
      rw [filter_insertDescBy_eq, ih]
      simp [List.filter_cons]
    · rw [filter_insertDescBy_ne key x _ q hx, ih]
      simp [List.filter_cons, hx]

/-- Index view of `droneCap`: position `i` of the output is position `i` of
the hull-premium-descending sort, with the adjusted premium kept for
`i < max_drones` and flattened to `150` otherwise. -/
theorem droneCap_get? (m : ℕ) (l : List DroneDict) (i : ℕ) :
    (droneCap m l)[i]? = ((sortDescBy hullPremiumD l)[i]?).map
      (fun d =>
        if m ≤ i then {d with adjusted_hull_premium := some 150}
        else {d with adjusted_hull_premium := some (hullPremiumD d)}) := by
  unfold droneCap
  rw [List.getElem?_map, List.getElem?_enum]
  cases (sortDescBy hullPremiumD l)[i]? <;> simp

/-- Index view of the triggered camera cap, analogous to `droneCap_get?`. -/
theorem cameraCap_get?_of_triggered (m n : ℕ) (l : List Camera)
    (h : l.length > n) (i : ℕ) :
    (cameraCap m n l)[i]? = ((sortDescBy Camera.value l)[i]?).map
      (fun c =>
        if m ≤ i then {c with adjusted_hull_premium := some 50}
        else {c with adjusted_hull_premium := some (camHullPremiumD c)}) := by
  unfold cameraCap
  rw [if_pos h, List.getElem?_map, List.getElem?_enum]
  cases (sortDescBy Camera.value l)[i]? <;> simp

/-- Build an input drone record (all computed fields still `None`),
shaped like the entries of `get_example_data` (`src/Updated_Code.py`
lines 34-83). -/
def mkDrone (sn : String) (v : ℚ) (w : String) (flag : Bool) (tl te : ℚ) :
    DroneDict :=
  ⟨sn, some (.num v), some (.str w), flag, some (.num tl), some (.num te),
   none, none, none, none, none, none, none, none, none⟩

/-- Build an input camera record, shaped like the entries of
`get_example_data` (`src/Updated_Code.py` lines 84-110). -/
def mkCamera (sn : String) (v : ℚ) : Camera := ⟨sn, v, none, none, none⟩

/-- The repository's `weight_adj_table` (`src/Updated_Code.py` line 305):
band multipliers `1, 1.2, 1.6, 2.5` as exact rationals. -/
def weight_adj_table : List (String × ℚ) :=
  [("0 - 5kg", 1), ("5 - 10kg", 6/5), ("10 - 20kg", 8/5), ("> 20kg", 5/2)]

/-- The first example drone of `get_example_data` (`src/Updated_Code.py`
lines 35-50), also the end-to-end example of the spec. -/
def exampleDrone : DroneDict := mkDrone "AAA-111" 10000 "0 - 5kg" true 1000000 0

/-- C4 counterexample: at the valid-domain point `x = 0`, `base_limit = 1`,
`z = 0` (so `0 ≤ x`, `0 < base_limit`, `-1 < z`), the exponent is
`log2 1 = 0`, hence `ilf 0 1 0 = 0 ^ 0 = 1 ≠ 0` (Python agrees:
`0.0 ** 0.0 == 1.0`), refuting `ilf(0, base_limit, z) = 0`; and at
`z = -1/2` the exponent `log2 (1/2) = -1` is negative, so `ilf` is strictly
decreasing from `x = 1` to `x = 2`, refuting monotone non-decrease. -/
theorem ilf_claim_counterexample :
    (0:ℝ) ≤ 0 ∧ (0:ℝ) < 1 ∧ (-1:ℝ) < 0 ∧ ilf 0 1 0 = 1 ∧ (1:ℝ) ≠ 0 ∧
    (1:ℝ) ≤ 2 ∧ (-1:ℝ) < -1/2 ∧ ilf 2 1 (-1/2) < ilf 1 1 (-1/2) := by
  refine ⟨le_refl 0, one_pos, by norm_num, ?_, one_ne_zero, by norm_num,
    by norm_num, ?_⟩
  · unfold ilf
    norm_num [Real.logb_one, Real.rpow_zero]
  · unfold ilf
    have h1 : (1:ℝ) + (-1/2) = 1/2 := by norm_num
    have h2 : Real.logb 2 (1/2) = -1 := by
      rw [show (1/2 : ℝ) = 2⁻¹ by norm_num, Real.logb_inv,
        Real.logb_self_eq_one one_lt_two]
    rw [h1, h2]
    norm_num [Real.rpow_neg_one, Real.one_rpow]

/-- C4 amended: on the domain `0 ≤ x`, `0 < base_limit`, `-1 < z`, `ilf`
equals `(x / base_limit) ^ log2 (1+z)` and is non-negative; it is
monotonically non-decreasing in `x` when `z ≥ 0` (non-negative exponent),
and `ilf 0 base_limit z = 0` when `z > 0` (strictly positive exponent);
for `z = 0` the value at `0` is `0 ^ 0 = 1`, and for `-1 < z < 0` the curve
is decreasing, so the restrictions on `z` are necessary. -/
theorem ilf_spec (x1 x2 b z : ℝ) (hx1 : 0 ≤ x1) (h12 : x1 ≤ x2) (hb : 0 < b)
    (hz : -1 < z) :
    ilf x1 b z = (x1 / b) ^ Real.logb 2 (1 + z) ∧
    0 ≤ ilf x1 b z ∧
    (0 ≤ z → ilf x1 b z ≤ ilf x2 b z) ∧
    (0 < z → ilf 0 b z = 0) := by
  refine ⟨rfl, Real.rpow_nonneg (div_nonneg hx1 hb.le) _, ?_, ?_⟩
  · intro hz0
    exact Real.rpow_le_rpow (div_nonneg hx1 hb.le)
      ((div_le_div_iff_of_pos_right hb).mpr h12)
      (Real.logb_nonneg one_lt_two (by linarith))
  · intro hz0
    unfold ilf
    rw [zero_div]
    exact Real.zero_rpow (Real.logb_pos one_lt_two (by linarith)).ne'

/-- Witness for `ilf_spec` at `x1 = 0`, `x2 = 2`, `base_limit = 1`,
`z = 1`. -/
theorem ilf_spec_witness :
    (0:ℝ) ≤ 0 ∧ (0:ℝ) ≤ 2 ∧ (0:ℝ) < 1 ∧ (-1:ℝ) < 1 ∧
    (ilf 0 1 1 = (0 / 1) ^ Real.logb 2 (1 + 1) ∧
     0 ≤ ilf 0 1 1 ∧
     ((0:ℝ) ≤ 1 → ilf 0 1 1 ≤ ilf 2 1 1) ∧
     ((0:ℝ) < 1 → ilf 0 1 1 = 0)) :=
  ⟨le_refl 0, by norm_num, one_pos, by norm_num,
   ilf_spec 0 2 1 1 (le_refl 0) (by norm_num) one_pos (by norm_num)⟩

/-- Full case analysis of `validate_drone`: the loop checks presence and
type of the keys in the fixed order `value, weight, tpl_limit, tpl_excess`
and re-checks `value < 0` at the end of every iteration, so the sign error
fires already in the first iteration and the first defect in that order
determines the raised exception. -/
theorem validate_drone_cases (d : DroneDict) :
    validate_drone d =
      match d.value with
      | none => .error (.missingField "value")
      | some (.str _) => .error (.typeMismatch "value")
      | some .pyNone => .error (.typeMismatch "value")
      | some (.num q) =>
        if q < 0 then .error .invalidValue
        else
          match d.weight with
          | none => .error (.missingField "weight")
          | some (.num _) => .error (.typeMismatch "weight")
          | some .pyNone => .error (.typeMismatch "weight")
          | some (.str _) =>
            match d.tpl_limit with
            | none => .error (.missingField "tpl_limit")
            | some (.str _) => .error (.typeMismatch "tpl_limit")
            | some .pyNone => .error (.typeMismatch "tpl_limit")
            | some (.num _) =>
              match d.tpl_excess with
              | none => .error (.missingField "tpl_excess")
              | some (.str _) => .error (.typeMismatch "tpl_excess")
              | some .pyNone => .error (.typeMismatch "tpl_excess")
              | some (.num _) => .ok () := by
  have expand : validate_drone d =
      (checkKey d "value" >>= fun _ => checkKey d "weight" >>= fun _ =>
       checkKey d "tpl_limit" >>= fun _ => checkKey d "tpl_excess" >>= fun _ =>
       pure ()) := rfl
  rw [expand]
  cases hv : d.value with
  | none => simp [checkKey, getKey, hv, Except.bind] <;> rfl
  | some v =>
    cases v with
    | str s => simp [checkKey, getKey, hv, Except.bind] <;> rfl
    | pyNone => simp [checkKey, getKey, hv, Except.bind] <;> rfl
    | num q =>
      by_cases hq : q < 0
      · simp [checkKey, getKey, checkValueSign, hv, hq, Except.bind] <;> rfl
      · cases hw : d.weight with
        | none => simp [checkKey, getKey, checkValueSign, hv, hw, hq, Except.bind] <;> rfl
        | some w =>
          cases w with
          | num q2 => simp [checkKey, getKey, checkValueSign, hv, hw, hq, Except.bind] <;> rfl
          | pyNone => simp [checkKey, getKey, checkValueSign, hv, hw, hq, Except.bind] <;> rfl
          | str s =>
            cases htl : d.tpl_limit with
            | none =>
              simp [checkKey, getKey, checkValueSign, hv, hw, htl, hq, Except.bind] <;> rfl
            | some tl =>
              cases tl with
              | str s2 =>
                simp [checkKey, getKey, checkValueSign, hv, hw, htl, hq, Except.bind] <;> rfl
              | pyNone =>
                simp [checkKey, getKey, checkValueSign, hv, hw, htl, hq, Except.bind] <;> rfl
              | num q3 =>
                cases hte : d.tpl_excess with
                | none =>
                  simp [checkKey, getKey, checkValueSign, hv, hw, htl, hte, hq,
                    Except.bind] <;> rfl
                | some te =>
                  cases te <;>
                    simp [checkKey, getKey, checkValueSign, hv, hw, htl, hte, hq,
                      Except.bind] <;> rfl

/-- A drone record with two defects at once: `value` present, numeric and
negative, while `weight`, `tpl_limit` and `tpl_excess` are absent. -/
def badDrone : DroneDict :=
  ⟨"BAD-000", some (.num (-5)), none, false, none, none,
   none, none, none, none, none, none, none, none, none⟩

/-- C8 counterexample: the claim says a record missing `weight` fails with a
MissingField error, but on `badDrone` (negative `value`, `weight` absent)
the loop's first iteration already raises `ValueError` (InvalidValue), so a
record with an absent required field can fail with a different error class:
the checks are ordered, not independent. -/
theorem validate_drone_claim_counterexample :
    badDrone.weight = none ∧ badDrone.tpl_excess = none ∧
    validate_drone badDrone = .error .invalidValue ∧
    Err.invalidValue ≠ .missingField "weight" ∧
    Err.invalidValue ≠ .missingField "tpl_excess" := by
  refine ⟨rfl, rfl, rfl, by decide, by decide⟩

/-- C8 amended: `validate_drone` examines `value, weight, tpl_limit,
tpl_excess` in that order, checking presence then type, and re-checks
`value < 0` at the end of every iteration; the first defect in that order
determines the error.  Hence validation succeeds iff all four fields are
present, `weight` is textual, the other three are numeric and `value ≥ 0`;
a record whose earlier fields are healthy fails with MissingField on its
first absent key, with TypeMismatch on its first ill-typed key, and with
InvalidValue when `value` is negative (the latter regardless of the later
fields); and any validation failure during hull or TPL pricing is raised
before any computed field of the record is written. -/
theorem validate_drone_amended_spec (d : DroneDict) (hbr tbr : ℚ)
    (tbl : List (String × ℚ)) (bl z : ℝ) :
    (validate_drone d = .ok () ↔
      ((∃ q, d.value = some (.num q) ∧ 0 ≤ q) ∧
       (∃ s, d.weight = some (.str s)) ∧
       (∃ q, d.tpl_limit = some (.num q)) ∧
       (∃ q, d.tpl_excess = some (.num q)))) ∧
    (d.value = none → validate_drone d = .error (.missingField "value")) ∧
    (∀ q, d.value = some (.num q) → 0 ≤ q → d.weight = none →
      validate_drone d = .error (.missingField "weight")) ∧
    (∀ q s, d.value = some (.num q) → 0 ≤ q → d.weight = some (.str s) →
      d.tpl_limit = none → validate_drone d = .error (.missingField "tpl_limit")) ∧
    (∀ q s q2, d.value = some (.num q) → 0 ≤ q → d.weight = some (.str s) →
      d.tpl_limit = some (.num q2) → d.tpl_excess = none →
      validate_drone d = .error (.missingField "tpl_excess")) ∧
    (∀ v, d.value = some v → (∀ q, v ≠ .num q) →
      validate_drone d = .error (.typeMismatch "value")) ∧
    (∀ q w, d.value = some (.num q) → 0 ≤ q → d.weight = some w →
      (∀ s, w ≠ .str s) → validate_drone d = .error (.typeMismatch "weight")) ∧
    (∀ q s v, d.value = some (.num q) → 0 ≤ q → d.weight = some (.str s) →
      d.tpl_limit = some v → (∀ q2, v ≠ .num q2) →
      validate_drone d = .error (.typeMismatch "tpl_limit")) ∧
    (∀ q s q2 v, d.value = some (.num q) → 0 ≤ q → d.weight = some (.str s) →
      d.tpl_limit = some (.num q2) → d.tpl_excess = some v →
      (∀ q3, v ≠ .num q3) →
      validate_drone d = .error (.typeMismatch "tpl_excess")) ∧
    (∀ q, d.value = some (.num q) → q < 0 →
      validate_drone d = .error .invalidValue) ∧
    (∀ e, validate_drone d = .error e →
      calculate_hull_premium d hbr tbl = (d, some e) ∧
      calculate_tpl_premium d tbr bl z = (d, some e)) := by
  refine ⟨⟨?_, ?_⟩, ?_, ?_, ?_, ?_, ?_, ?_, ?_, ?_, ?_, ?_⟩
  · intro h
    rw [validate_drone_cases] at h
    cases hv : d.value with
    | none => simp only [hv] at h; exact absurd h (by simp)
    | some v =>
      cases v with
      | str s => simp only [hv] at h; exact absurd h (by simp)
      | pyNone => simp only [hv] at h; exact absurd h (by simp)
      | num q =>
        simp only [hv] at h
        by_cases hq : q < 0
        · rw [if_pos hq] at h; exact absurd h (by simp)
        · rw [if_neg hq] at h
          cases hw : d.weight with
          | none => simp only [hw] at h; exact absurd h (by simp)
          | some w =>
            cases w with
            | num q2 => simp only [hw] at h; exact absurd h (by simp)
            | pyNone => simp only [hw] at h; exact absurd h (by simp)
            | str s =>
              simp only [hw] at h
              cases htl : d.tpl_limit with
              | none => simp only [htl] at h; exact absurd h (by simp)
              | some tl =>
                cases tl with
                | str s2 => simp only [htl] at h; exact absurd h (by simp)
                | pyNone => simp only [htl] at h; exact absurd h (by simp)
                | num q2 =>
                  simp only [htl] at h
                  cases hte : d.tpl_excess with
                  | none => simp only [hte] at h; exact absurd h (by simp)
                  | some te =>
                    cases te with
                    | str s3 => simp only [hte] at h; exact absurd h (by simp)
                    | pyNone => simp only [hte] at h; exact absurd h (by simp)
                    | num q3 =>
                      exact ⟨⟨q, rfl, not_lt.mp hq⟩, ⟨s, rfl⟩, ⟨q2, rfl⟩, ⟨q3, rfl⟩⟩
  · rintro ⟨⟨q, hv, hq⟩, ⟨s, hw⟩, ⟨q2, htl⟩, ⟨q3, hte⟩⟩
    rw [validate_drone_cases, hv, hw, htl, hte]
    simp [not_lt.mpr hq]
  · intro hv
    rw [validate_drone_cases, hv]
  · intro q hv hq hw
    rw [validate_drone_cases, hv, hw]
    simp [not_lt.mpr hq]
  · intro q s hv hq hw htl
    rw [validate_drone_cases, hv, hw, htl]
    simp [not_lt.mpr hq]
  · intro q s q2 hv hq hw htl hte
    rw [validate_drone_cases, hv, hw, htl, hte]
    simp [not_lt.mpr hq]
  · intro v hv hnum
    rw [validate_drone_cases, hv]
    cases v with
    | num q => exact absurd rfl (hnum q)
    | str s => rfl
    | pyNone => rfl
  · intro q w hv hq hw hstr
    rw [validate_drone_cases, hv, hw]
    cases w with
    | str s => exact absurd rfl (hstr s)
    | num q2 => simp [not_lt.mpr hq]
    | pyNone => simp [not_lt.mpr hq]
  · intro q s v hv hq hw htl hnum
    rw [validate_drone_cases, hv, hw, htl]
    cases v with
    | num q2 => exact absurd rfl (hnum q2)
    | str s2 => simp [not_lt.mpr hq]
    | pyNone => simp [not_lt.mpr hq]
  · intro q s q2 v hv hq hw htl hte hnum
    rw [validate_drone_cases, hv, hw, htl, hte]
    cases v with
    | num q3 => exact absurd rfl (hnum q3)
    | str s2 => simp [not_lt.mpr hq]
    | pyNone => simp [not_lt.mpr hq]
  · intro q hv hq
    rw [validate_drone_cases, hv]
    simp [hq]
  · intro e he
    exact ⟨by simp [calculate_hull_premium, he],
           by simp [calculate_tpl_premium, he]⟩

/-- A drone record whose only defect is the absent `tpl_excess` key, for the
witness below. -/
def droneMissingExcess : DroneDict :=
  ⟨"MIS-000", some (.num 5000), some (.str "0 - 5kg"), true,
   some (.num 1000000), none,
   none, none, none, none, none, none, none, none, none⟩

/-- Witness for `validate_drone_amended_spec`: on `droneMissingExcess` the
instantiated conjuncts give the MissingField failure of the spec's own
example (a record missing `tpl_excess`), raised with the record unchanged by
hull pricing. -/
theorem validate_drone_amended_spec_witness :
    droneMissingExcess.value = some (.num 5000) ∧
    (0:ℚ) ≤ 5000 ∧
    droneMissingExcess.weight = some (.str "0 - 5kg") ∧
    droneMissingExcess.tpl_limit = some (.num 1000000) ∧
    droneMissingExcess.tpl_excess = none ∧
    validate_drone droneMissingExcess = .error (.missingField "tpl_excess") ∧
    calculate_hull_premium droneMissingExcess (3/50) weight_adj_table =
      (droneMissingExcess, some (.missingField "tpl_excess")) := by
  have h := validate_drone_amended_spec droneMissingExcess (3/50) (1/50)
    weight_adj_table 1000000 (1/5)
  have hval : validate_drone droneMissingExcess =
      .error (.missingField "tpl_excess") :=
    h.2.2.2.2.1 5000 "0 - 5kg" 1000000 rfl (by norm_num) rfl rfl rfl
  refine ⟨rfl, by norm_num, rfl, rfl, rfl, hval, ?_⟩
  exact (h.2.2.2.2.2.2.2.2.2.2 (.missingField "tpl_excess") hval).1

/-- C7: on any drone that passes validation, hull pricing writes
`hull_base_rate`, a `hull_weight_adjustment` looked up in the table with
default `1`, `hull_final_rate = hull_base_rate * hull_weight_adjustment`
and `hull_premium = value * hull_final_rate`, with no error; the lookup of
an unrecognized band yields exactly the default `1`; and on the repository's
example drone (value 10000, weight band 0-5kg) with `hull_base_rate = 0.06`
the result is `hull_final_rate = 0.06` and `hull_premium = 600`. -/
theorem calculate_hull_premium_spec (d : DroneDict) (hbr : ℚ)
    (tbl : List (String × ℚ)) (hok : validate_drone d = .ok ()) :
    calculate_hull_premium d hbr tbl =
      ({d with
          hull_base_rate := some hbr,
          hull_weight_adjustment := some ((tbl.lookup (strVal d.weight)).getD 1),
          hull_final_rate := some (hbr * ((tbl.lookup (strVal d.weight)).getD 1)),
          hull_premium :=
            some (numVal d.value * (hbr * ((tbl.lookup (strVal d.weight)).getD 1)))},
        none) ∧
    (tbl.lookup (strVal d.weight) = none →
      ((tbl.lookup (strVal d.weight)).getD 1 : ℚ) = 1) ∧
    calculate_hull_premium exampleDrone (3/50) weight_adj_table =
      ({exampleDrone with
          hull_base_rate := some (3/50),
          hull_weight_adjustment := some 1,
          hull_final_rate := some (3/50),
          hull_premium := some 600}, none) := by
  refine ⟨?_, ?_, ?_⟩
  · simp [calculate_hull_premium, hok]
  · intro h
    rw [h]
    rfl
  · have hok2 : validate_drone exampleDrone = .ok () := rfl
    simp only [calculate_hull_premium, hok2]
    simp [exampleDrone, mkDrone, strVal, numVal, weight_adj_table]
    norm_num

/-- Witness for `calculate_hull_premium_spec` at the repository's example
drone and parameters. -/
theorem calculate_hull_premium_spec_witness :
    validate_drone exampleDrone = .ok () ∧
    (calculate_hull_premium exampleDrone (3/50) weight_adj_table =
      ({exampleDrone with
          hull_base_rate := some (3/50),
          hull_weight_adjustment :=
            some ((weight_adj_table.lookup (strVal exampleDrone.weight)).getD 1),
          hull_final_rate :=
            some ((3/50) *
              ((weight_adj_table.lookup (strVal exampleDrone.weight)).getD 1)),
          hull_premium :=
            some (numVal exampleDrone.value *
              ((3/50) *
                ((weight_adj_table.lookup (strVal exampleDrone.weight)).getD 1)))},
        none) ∧
     (weight_adj_table.lookup (strVal exampleDrone.weight) = none →
       ((weight_adj_table.lookup (strVal exampleDrone.weight)).getD 1 : ℚ) = 1) ∧
     calculate_hull_premium exampleDrone (3/50) weight_adj_table =
       ({exampleDrone with
           hull_base_rate := some (3/50),
           hull_weight_adjustment := some 1,
           hull_final_rate := some (3/50),
           hull_premium := some 600}, none)) :=
  ⟨rfl, calculate_hull_premium_spec exampleDrone (3/50) weight_adj_table rfl⟩

/-- C10: a record with all four required fields present, textual `weight`,
numeric `value`, `tpl_limit`, `tpl_excess` and `value ≥ 0` passes
validation — the sign check is applied only to `value`, so nothing
constrains the signs of `tpl_limit` or `tpl_excess` — and both hull and TPL
pricing then complete without raising any error. -/
theorem negative_tpl_limits_pass (d : DroneDict) (hbr tbr : ℚ)
    (tbl : List (String × ℚ)) (bl z : ℝ) (qv ql qe : ℚ) (s : String)
    (hv : d.value = some (.num qv)) (hq : 0 ≤ qv)
    (hw : d.weight = some (.str s))
    (htl : d.tpl_limit = some (.num ql)) (hte : d.tpl_excess = some (.num qe)) :
    validate_drone d = .ok () ∧
    (calculate_hull_premium d hbr tbl).2 = none ∧
    (calculate_tpl_premium d tbr bl z).2 = none := by
  have hok : validate_drone d = .ok () := by
    rw [validate_drone_cases, hv, hw, htl, hte]
    simp [not_lt.mpr hq]
  refine ⟨hok, ?_, ?_⟩
  · simp [calculate_hull_premium, hok]
  · simp [calculate_tpl_premium, hok]

/-- A drone record with both TPL fields strictly negative, for the witness
below. -/
def negativeTplDrone : DroneDict :=
  mkDrone "NEG-000" 8000 "5 - 10kg" true (-2000000) (-500)

/-- Witness for `negative_tpl_limits_pass` on a drone whose `tpl_limit` and
`tpl_excess` are both negative: validation and both pricing passes raise no
error. -/
theorem negative_tpl_limits_pass_witness :
    negativeTplDrone.value = some (.num 8000) ∧ (0:ℚ) ≤ 8000 ∧
    negativeTplDrone.weight = some (.str "5 - 10kg") ∧
    negativeTplDrone.tpl_limit = some (.num (-2000000)) ∧
    negativeTplDrone.tpl_excess = some (.num (-500)) ∧
    ((-2000000 : ℚ) < 0 ∧ (-500 : ℚ) < 0) ∧
    (validate_drone negativeTplDrone = .ok () ∧
     (calculate_hull_premium negativeTplDrone (3/50) weight_adj_table).2 = none ∧
     (calculate_tpl_premium negativeTplDrone (1/50) 1000000 (1/5)).2 = none) :=
  ⟨rfl, by norm_num, rfl, rfl, rfl, by norm_num,
   negative_tpl_limits_pass negativeTplDrone (3/50) (1/50) weight_adj_table
     1000000 (1/5) 8000 (-2000000) (-500) "5 - 10kg" rfl (by norm_num) rfl rfl rfl⟩

/-- A priced drone that does not carry a detachable camera (the shape of
`BBB-222` after hull pricing: `0.06 * 1.6 = 0.096`, premium `1152`). -/
def unflaggedPricedDrone : DroneDict :=
  {mkDrone "BBB-222" 12000 "10 - 20kg" false 4000000 1000000 with
    hull_base_rate := some (3/50), hull_weight_adjustment := some (8/5),
    hull_final_rate := some (12/125), hull_premium := some 1152}

/-- Two priced flagged drones with simple integer hull rates, test vectors
for the maximum-rate lookup. -/
def flaggedDroneA : DroneDict :=
  {mkDrone "AAA-111" 10000 "0 - 5kg" true 1000000 0 with
    hull_final_rate := some 2, hull_premium := some 20000}

/-- Second flagged test drone, with the larger hull rate. -/
def flaggedDroneB : DroneDict :=
  {mkDrone "AAA-123" 15000 "5 - 10kg" true 5000000 5000000 with
    hull_final_rate := some 3, hull_premium := some 45000}

/-- C3 (code bug): when no drone carries a detachable camera,
`get_max_hull_rate` returns `None` and `main` passes it straight into
`calculate_camera_premium`, which crashes with a `TypeError`
(`value * None`) — there is no NoApplicableRate condition anywhere
(`src/code.py` line 195 instead crashes inside `max()` on an empty
sequence).  When flagged drones exist the lookup does return the maximum
`hull_final_rate` among them, as the third conjunct shows on a three-drone
list. -/
theorem camera_rate_lookup_crash :
    get_max_hull_rate [unflaggedPricedDrone] = none ∧
    rate_cameras [unflaggedPricedDrone] [mkCamera "ZZZ-999" 5000] =
      .error .noneArithmetic ∧
    get_max_hull_rate [flaggedDroneA, flaggedDroneB, unflaggedPricedDrone] =
      some 3 ∧
    get_max_hull_rate [flaggedDroneB, flaggedDroneA, unflaggedPricedDrone] =
      some 3 :=
  ⟨rfl, rfl, rfl, rfl⟩

/-- The repository's three drones as they stand right after hull pricing,
with exact rates `0.06, 0.096, 0.072` and premiums `600, 1152, 1080`. -/
def pricedDrone600 : DroneDict :=
  {mkDrone "AAA-111" 10000 "0 - 5kg" true 1000000 0 with
    hull_base_rate := some (3/50), hull_weight_adjustment := some 1,
    hull_final_rate := some (3/50), hull_premium := some 600}

/-- A priced drone with hull premium `720` (the spec's drone-cap example
uses premiums `600, 720, 800`). -/
def pricedDrone720 : DroneDict :=
  {mkDrone "BBB-222" 12000 "10 - 20kg" false 4000000 1000000 with
    hull_premium := some 720}

/-- A priced drone with hull premium `800`. -/
def pricedDrone800 : DroneDict :=
  {mkDrone "AAA-123" 15000 "5 - 10kg" true 5000000 5000000 with
    hull_premium := some 800}

/-- C5: the drone cap of `applying_extensions` sorts the drones by
`hull_premium` descending (a stable sort: a permutation, pairwise
non-increasing, and each premium class keeps its original input order),
keeps `adjusted_hull_premium = hull_premium` at sorted positions below
`max_drones_in_air` and writes the flat `150` at every later position; on
premiums `600, 720, 800` with `max_drones_in_air = 2` the drones priced
`800` and `720` keep their premiums and the drone priced `600` gets
`150`. -/
theorem droneCap_spec (m : ℕ) (l : List DroneDict) :
    (∀ data : Batch, (applying_extensions data).drones =
      droneCap data.max_drones_in_air data.drones) ∧
    List.Perm (sortDescBy hullPremiumD l) l ∧
    List.Pairwise (fun a b => hullPremiumD b ≤ hullPremiumD a)
      (sortDescBy hullPremiumD l) ∧
    (∀ q : ℚ,
      (sortDescBy hullPremiumD l).filter (fun d => decide (hullPremiumD d = q)) =
        l.filter (fun d => decide (hullPremiumD d = q))) ∧
    (∀ i : ℕ, (droneCap m l)[i]? = ((sortDescBy hullPremiumD l)[i]?).map
      (fun d =>
        if m ≤ i then {d with adjusted_hull_premium := some 150}
        else {d with adjusted_hull_premium := some (hullPremiumD d)})) ∧
    (droneCap 2 [pricedDrone600, pricedDrone720, pricedDrone800]).map
        (fun d => (hullPremiumD d, d.adjusted_hull_premium)) =
      [(800, some 800), (720, some 720), (600, some 150)] :=
  ⟨fun _ => rfl, sortDescBy_perm _ _, sortDescBy_pairwise _ _,
   sortDescBy_stable _ _, droneCap_get? m l, by decide⟩

/-- A camera priced at rate `7/100`: value `100`, premium `7`. -/
def smallCameraA : Camera := ⟨"CAM-A", 100, some (7/100), some 7, none⟩

/-- A camera priced at rate `7/100`: value `200`, premium `14`. -/
def smallCameraB : Camera := ⟨"CAM-B", 200, some (7/100), some 14, none⟩

/-- C6: the camera cap triggers exactly when there are more cameras than
drones.  When it does not trigger every camera gets
`adjusted_hull_premium = hull_premium` unchanged — shown generally and on
two 2-camera/3-drone lists with opposite value orderings; when it triggers,
the cameras are sorted by `value` descending (stable: permutation, pairwise
non-increasing, value classes keep input order) and position `i` keeps its
premium for `i < max_drones_in_air` and gets the flat `50` otherwise. -/
theorem cameraCap_spec (m n : ℕ) (l : List Camera) :
    (∀ data : Batch, (applying_extensions data).detachable_cameras =
      cameraCap data.max_drones_in_air data.drones.length
        data.detachable_cameras) ∧
    (¬ l.length > n → cameraCap m n l =
      l.map (fun c => {c with adjusted_hull_premium := some (camHullPremiumD c)})) ∧
    (l.length > n →
      (List.Perm (sortDescBy Camera.value l) l ∧
       List.Pairwise (fun a b => Camera.value b ≤ Camera.value a)
         (sortDescBy Camera.value l) ∧
       (∀ q : ℚ,
         (sortDescBy Camera.value l).filter (fun c => decide (Camera.value c = q)) =
           l.filter (fun c => decide (Camera.value c = q))) ∧
       (∀ i : ℕ, (cameraCap m n l)[i]? = ((sortDescBy Camera.value l)[i]?).map
         (fun c =>
           if m ≤ i then {c with adjusted_hull_premium := some 50}
           else {c with adjusted_hull_premium := some (camHullPremiumD c)})))) ∧
    (cameraCap 2 3 [smallCameraA, smallCameraB]).map
        (fun c => (c.value, c.adjusted_hull_premium)) =
      [(100, some 7), (200, some 14)] ∧
    (cameraCap 2 3 [smallCameraB, smallCameraA]).map
        (fun c => (c.value, c.adjusted_hull_premium)) =
      [(200, some 14), (100, some 7)] := by
  refine ⟨fun _ => rfl, ?_, ?_, by decide, by decide⟩
  · intro h
    unfold cameraCap
    rw [if_neg h]
  · intro h
    exact ⟨sortDescBy_perm _ _, sortDescBy_pairwise _ _, sortDescBy_stable _ _,
      cameraCap_get?_of_triggered m n l h⟩

/-- The repository's four cameras (`src/Updated_Code.py` lines 84-110) as
priced by `calculate_camera_premium` at the maximum flagged hull rate
`0.072 = 9/125`: premiums `360, 180, 108, 144`. -/
def exampleCameras : List Camera :=
  [⟨"ZZZ-999", 5000, some (9/125), some 360, none⟩,
   ⟨"YYY-888", 2500, some (9/125), some 180, none⟩,
   ⟨"XXX-777", 1500, some (9/125), some 108, none⟩,
   ⟨"WWW-666", 2000, some (9/125), some 144, none⟩]

/-- Witness for `cameraCap_spec` on the repository's four cameras against
three drones: the trigger hypothesis `4 > 3` holds and the triggered-branch
conclusions follow by applying the theorem. -/
theorem cameraCap_spec_witness :
    exampleCameras.length > 3 ∧
    (List.Perm (sortDescBy Camera.value exampleCameras) exampleCameras ∧
     List.Pairwise (fun a b => Camera.value b ≤ Camera.value a)
       (sortDescBy Camera.value exampleCameras) ∧
     (∀ q : ℚ,
       (sortDescBy Camera.value exampleCameras).filter
           (fun c => decide (Camera.value c = q)) =
         exampleCameras.filter (fun c => decide (Camera.value c = q))) ∧
     (∀ i : ℕ, (cameraCap 2 3 exampleCameras)[i]? =
       ((sortDescBy Camera.value exampleCameras)[i]?).map
       (fun c =>
         if 2 ≤ i then {c with adjusted_hull_premium := some 50}
         else {c with adjusted_hull_premium := some (camHullPremiumD c)}))) ∧
    (¬ ([smallCameraA, smallCameraB].length > 3) ∧
     cameraCap 2 3 [smallCameraA, smallCameraB] =
       [smallCameraA, smallCameraB].map
         (fun c => {c with adjusted_hull_premium := some (camHullPremiumD c)})) :=
  ⟨by decide, (cameraCap_spec 2 3 exampleCameras).2.2.1 (by decide),
   by decide, (cameraCap_spec 2 3 [smallCameraA, smallCameraB]).2.1 (by decide)⟩

/-- C1 counterexample: on the spec example's own data — 4 cameras valued
`5000, 2500, 1500, 2000`, 3 drones, `max_drones_in_air = 2`, common rate
`r = 0.072` — the code keeps `value * r` for the cameras valued `5000` and
`2500` (the actual top 2 by value) and flattens the cameras valued `2000`
and `1500` to `50`; the claim instead names `5000` and `2000` as the
keepers, but the camera valued `2000` gets `50 ≠ 2000 * r = 144` and the
camera valued `2500` keeps `180 = 2500 * r ≠ 50`. -/
theorem cameraCap_example_counterexample :
    (cameraCap 2 3 exampleCameras).map
        (fun c => (c.value, c.adjusted_hull_premium)) =
      [(5000, some 360), (2500, some 180), (2000, some 50), (1500, some 50)] ∧
    (2000:ℚ) * (9/125) = 144 ∧ (2500:ℚ) * (9/125) = 180 ∧
    (50:ℚ) ≠ 144 ∧ (180:ℚ) ≠ 50 :=
  ⟨by decide, by norm_num, by norm_num, by norm_num, by norm_num⟩

/-- One insertion commutes with a key-preserving map: sorting records whose
keys agree with a simpler list's keys is the map of sorting the simpler
list. -/
theorem insertDescBy_map (key : β → ℚ) (keyA : α → ℚ) (f : α → β)
    (hf : ∀ a, key (f a) = keyA a) (x : α) (l : List α) :
    insertDescBy key (f x) (l.map f) = (insertDescBy keyA x l).map f := by
  induction l with
  | nil => rfl
  | cons y ys ih =>
    simp only [List.map_cons, insertDescBy, hf]
    by_cases h : keyA x < keyA y
    · rw [if_pos h, if_pos h, ih]
      simp
    · rw [if_neg h, if_neg h]
      simp

/-- `sortDescBy` commutes with a key-preserving map. -/
theorem sortDescBy_map (key : β → ℚ) (keyA : α → ℚ) (f : α → β)
    (hf : ∀ a, key (f a) = keyA a) (l : List α) :
    sortDescBy key (l.map f) = (sortDescBy keyA l).map f := by
  induction l with
  | nil => rfl
  | cons x xs ih =>
    simp only [List.map_cons, sortDescBy, ih]
    exact insertDescBy_map key keyA f hf x _

/-- The spec example's four camera inputs, values `5000, 2500, 1500, 2000`
in that input order. -/
def exampleCameraInputs : List Camera :=
  [mkCamera "ZZZ-999" 5000, mkCamera "YYY-888" 2500,
   mkCamera "XXX-777" 1500, mkCamera "WWW-666" 2000]

/-- The per-camera assignment of `calculate_camera_premium` at rate `r`:
`hull_rate = r`, `hull_premium = value * r`. -/
def priceCam (r : ℚ) (c : Camera) : Camera :=
  {c with hull_rate := some r, hull_premium := some (c.value * r)}

/-- The spec example's four cameras priced at an arbitrary common hull rate
`r`. -/
def exampleCamerasR (r : ℚ) : List Camera := exampleCameraInputs.map (priceCam r)

/-- C1 amended: for every common hull rate `r`, with camera values
`{5000, 2500, 1500, 2000}`, 3 drones and `max_drones_in_air = 2`, the top 2
by value — `5000` and `2500` — keep `value * r`, and the cameras valued
`2000` and `1500` get the flat `50`. -/
theorem cameraCap_example_spec (r : ℚ) :
    (cameraCap 2 3 (exampleCamerasR r)).map
        (fun c => (c.value, c.adjusted_hull_premium)) =
      [(5000, some (5000*r)), (2500, some (2500*r)),
       (2000, some 50), (1500, some 50)] := by
  have hkey : ∀ c : Camera, Camera.value (priceCam r c) = Camera.value c :=
    fun _ => rfl
  have hsortbase : sortDescBy Camera.value exampleCameraInputs =
      [mkCamera "ZZZ-999" 5000, mkCamera "YYY-888" 2500,
       mkCamera "WWW-666" 2000, mkCamera "XXX-777" 1500] := by decide
  have hsort : sortDescBy Camera.value (exampleCamerasR r) =
      [priceCam r (mkCamera "ZZZ-999" 5000), priceCam r (mkCamera "YYY-888" 2500),
       priceCam r (mkCamera "WWW-666" 2000), priceCam r (mkCamera "XXX-777" 1500)] := by
    rw [exampleCamerasR, sortDescBy_map Camera.value Camera.value (priceCam r) hkey,
      hsortbase]
    rfl
  unfold cameraCap
  rw [if_pos (show (exampleCamerasR r).length > 3 by
    rw [exampleCamerasR]; simp [exampleCameraInputs])]
  rw [hsort]
  simp only [List.enum, List.enumFrom, List.map]
  norm_num [priceCam, mkCamera, camHullPremiumD]

/-- A net totals record with simple concrete lines, a test vector for the
gross computation. -/
noncomputable def exNet : NetPrem :=
  { drones_hull := 100, drones_tpl := 50, cameras_hull := 25, total := 175 }

/-- C2 counterexample: at `brokerage = 2 ≥ 1`, `1 - brokerage = -1 ≠ 0`,
so every net line divides by `-1` without any error — the gross computation
succeeds where the claim requires a DivideByZero/InvalidParameter failure
for every `brokerage ≥ 1`. -/
theorem compute_gross_claim_counterexample :
    (1:ℚ) ≤ 2 ∧ (compute_gross exNet 2).isOk = true := by
  refine ⟨by norm_num, ?_⟩
  unfold compute_gross
  rw [if_neg (by norm_num)]
  rfl

/-- C2 amended: the gross computation divides each net line by
`1 - brokerage` and raises ZeroDivisionError exactly when `brokerage = 1`;
for every other brokerage — values above `1` included — it succeeds, with
each gross line equal to the net line divided by `1 - brokerage`. -/
theorem compute_gross_spec (net : NetPrem) (b : ℚ) :
    (b = 1 → compute_gross net b = .error .divideByZero) ∧
    (b ≠ 1 → compute_gross net b = .ok
      { drones_hull := net.drones_hull / (1 - b),
        drones_tpl := net.drones_tpl / (1 - (b:ℝ)),
        cameras_hull := net.cameras_hull / (1 - b),
        total := ((net.drones_hull / (1 - b) : ℚ) : ℝ) +
          net.drones_tpl / (1 - (b:ℝ)) +
          ((net.cameras_hull / (1 - b) : ℚ) : ℝ) }) := by
  constructor
  · intro hb
    subst hb
    unfold compute_gross
    rw [if_pos (by norm_num)]
  · intro hb
    unfold compute_gross
    rw [if_neg (fun h => hb (sub_eq_zero.mp h).symm)]

/-- Witness for `compute_gross_spec` at `exNet`: failure at `brokerage = 1`,
success at `brokerage = 1/2`. -/
theorem compute_gross_spec_witness :
    compute_gross exNet 1 = .error .divideByZero ∧
    (1/2 : ℚ) ≠ 1 ∧
    compute_gross exNet (1/2) = .ok
      { drones_hull := exNet.drones_hull / (1 - 1/2),
        drones_tpl := exNet.drones_tpl / (1 - ((1/2 : ℚ):ℝ)),
        cameras_hull := exNet.cameras_hull / (1 - 1/2),
        total := ((exNet.drones_hull / (1 - 1/2) : ℚ) : ℝ) +
          exNet.drones_tpl / (1 - ((1/2 : ℚ):ℝ)) +
          ((exNet.cameras_hull / (1 - 1/2) : ℚ) : ℝ) } :=
  ⟨(compute_gross_spec exNet 1).1 rfl, by norm_num,
   (compute_gross_spec exNet (1/2)).2 (by norm_num)⟩

/-- The drone cap never touches `tpl_layer_premium`: the TPL sum over the
capped drones equals the TPL sum over the input drones. -/
theorem droneCap_tpl_sum (m : ℕ) (l : List DroneDict) :
    ((droneCap m l).map tplLayerPremiumD).sum =
      (l.map tplLayerPremiumD).sum := by
  unfold droneCap
  rw [List.map_map]
  have h1 : ((sortDescBy hullPremiumD l).enum.map
      (tplLayerPremiumD ∘ fun p =>
        if m ≤ p.1 then {p.2 with adjusted_hull_premium := some 150}
        else {p.2 with adjusted_hull_premium := some (hullPremiumD p.2)})) =
      (sortDescBy hullPremiumD l).enum.map (fun p => tplLayerPremiumD p.2) := by
    refine List.map_congr_left ?_
    intro p _
    by_cases h : m ≤ p.1 <;> simp [h, tplLayerPremiumD]
  rw [h1]
  have h2 : ((sortDescBy hullPremiumD l).enum.map (fun p => tplLayerPremiumD p.2)) =
      (sortDescBy hullPremiumD l).map tplLayerPremiumD := by
    rw [show (fun p : ℕ × DroneDict => tplLayerPremiumD p.2) =
        tplLayerPremiumD ∘ Prod.snd from rfl, ← List.map_map, List.enum_map_snd]
  rw [h2]
  exact ((sortDescBy_perm hullPremiumD l).map tplLayerPremiumD).sum_eq

/-- Steps (3) and (4) of `main` (`src/Updated_Code.py` lines 327-346):
apply the extensions, sum the net lines, then derive the gross lines. -/
noncomputable def main_totals (data : Batch) : NetPrem × Except Err GrossPrem :=
  let data2 := applying_extensions data
  let net := compute_net data2.drones data2.detachable_cameras
  (net, compute_gross net data2.brokerage)

/-- C9: after the extension step, `net.drones_hull` sums the drones'
`adjusted_hull_premium`, `net.drones_tpl` sums `tpl_layer_premium` — and
equals the TPL sum of the drones before the cap, because the flight cap
never touches TPL — `net.cameras_hull` sums the cameras'
`adjusted_hull_premium`, `net.total` is the sum of the three lines, and for
`brokerage ≠ 1` the gross computation succeeds with every gross line equal
to net line over `1 - brokerage` and `gross.total` (the sum of the three
gross lines) equal to `net.total / (1 - brokerage)` exactly. -/
theorem aggregation_spec (data : Batch) (hb : data.brokerage ≠ 1) :
    (main_totals data).1.drones_hull =
      ((applying_extensions data).drones.map adjustedHullPremiumD).sum ∧
    (main_totals data).1.drones_tpl =
      ((applying_extensions data).drones.map tplLayerPremiumD).sum ∧
    (main_totals data).1.drones_tpl = (data.drones.map tplLayerPremiumD).sum ∧
    (main_totals data).1.cameras_hull =
      ((applying_extensions data).detachable_cameras.map
        camAdjustedHullPremiumD).sum ∧
    (main_totals data).1.total = ((main_totals data).1.drones_hull : ℝ) +
      (main_totals data).1.drones_tpl + ((main_totals data).1.cameras_hull : ℝ) ∧
    (main_totals data).2 = .ok
      { drones_hull := (main_totals data).1.drones_hull / (1 - data.brokerage),
        drones_tpl :=
          (main_totals data).1.drones_tpl / (1 - (data.brokerage : ℝ)),
        cameras_hull :=
          (main_totals data).1.cameras_hull / (1 - data.brokerage),
        total := (main_totals data).1.total / (1 - (data.brokerage : ℝ)) } := by
  refine ⟨rfl, rfl, droneCap_tpl_sum _ _, rfl, rfl, ?_⟩
  have hgross := (compute_gross_spec (main_totals data).1 data.brokerage).2 hb
  have h2 : (main_totals data).2 =
      compute_gross (main_totals data).1 data.brokerage := rfl
  rw [h2, hgross]
  congr 1
  have htot : (main_totals data).1.total =
      ((main_totals data).1.drones_hull : ℝ) + (main_totals data).1.drones_tpl +
        ((main_totals data).1.cameras_hull : ℝ) := rfl
  refine GrossPrem.ext rfl rfl rfl ?_
  rw [htot]
  have hcast : ∀ q : ℚ, ((q / (1 - data.brokerage) : ℚ) : ℝ) =
      (q : ℝ) / (1 - (data.brokerage : ℝ)) := by
    intro q
    push_cast
    ring
  rw [hcast, hcast, add_div, add_div]

/-- A concrete one-drone batch with the repository's brokerage `0.3`, the
priced drone carrying a TPL layer premium of `24`, and the repository's four
priced cameras. -/
noncomputable def exBatch : Batch :=
  { brokerage := 3/10, max_drones_in_air := 2,
    drones := [{pricedDrone600 with tpl_layer_premium := some 24}],
    detachable_cameras := exampleCameras }

/-- Witness for `aggregation_spec` on `exBatch` (`brokerage = 0.3 ≠ 1`). -/
theorem aggregation_spec_witness :
    exBatch.brokerage ≠ 1 ∧
    ((main_totals exBatch).1.drones_hull =
      ((applying_extensions exBatch).drones.map adjustedHullPremiumD).sum ∧
    (main_totals exBatch).1.drones_tpl =
      ((applying_extensions exBatch).drones.map tplLayerPremiumD).sum ∧
    (main_totals exBatch).1.drones_tpl =
      (exBatch.drones.map tplLayerPremiumD).sum ∧
    (main_totals exBatch).1.cameras_hull =
      ((applying_extensions exBatch).detachable_cameras.map
        camAdjustedHullPremiumD).sum ∧
    (main_totals exBatch).1.total = ((main_totals exBatch).1.drones_hull : ℝ) +
      (main_totals exBatch).1.drones_tpl +
      ((main_totals exBatch).1.cameras_hull : ℝ) ∧
    (main_totals exBatch).2 = .ok
      { drones_hull := (main_totals exBatch).1.drones_hull /
          (1 - exBatch.brokerage),
        drones_tpl :=
          (main_totals exBatch).1.drones_tpl / (1 - (exBatch.brokerage : ℝ)),
        cameras_hull :=
          (main_totals exBatch).1.cameras_hull / (1 - exBatch.brokerage),
        total := (main_totals exBatch).1.total /
          (1 - (exBatch.brokerage : ℝ)) }) :=
  ⟨by norm_num [exBatch], aggregation_spec exBatch (by norm_num [exBatch])⟩

end DronePricing
